import Mathlib

/-!
Verification of the dispatch/orchestration pipeline of the
github-models-extension request router, embedded shallowly from
`src/index.ts` and `src/functions/execute-model.ts`.

External collaborators (the Copilot chat-completion backend, the model
catalog client, `JSON.parse` / `JSON.stringify`, the streaming transport)
are modelled as explicit inputs to the dispatch function: each remote
call outcome is a field of `DispatchInputs`, and the observable
behaviour of one request is the `DispatchResult` the dispatch function
computes from those inputs.
-/

/-- A chat message as exchanged with the completion API:
`{ role, content }`. -/
structure ChatMessage where
  role : String
  content : String
deriving DecidableEq, Repr

/-- The output contract of a capability handler
(`RunnerResponse` in `src/functions.ts`): a target model plus a
rewritten message list. -/
structure RunnerResponse where
  model : String
  messages : List ChatMessage
deriving DecidableEq, Repr

/-- Arguments of the `execute_model` capability:
`{ model: string; instruction: string }`
(`src/functions/execute-model.ts`). -/
structure ExecuteModelArgs where
  model : String
  instruction : String
deriving DecidableEq, Repr

/-- The fixed system message produced by `executeModel.execute`. -/
def executeModelSystemMessage : ChatMessage :=
  { role := "system"
    content := "Begin your response by telling the user the name of your language model." }

/-- `executeModel.execute` from `src/functions/execute-model.ts`:
ignores the conversation (`_` in the source), returns the argument model
as target and a two-message rewrite. -/
def executeModel.execute (_conv : List ChatMessage)
    (args : ExecuteModelArgs) : RunnerResponse :=
  { model := args.model
    messages :=
      [ executeModelSystemMessage,
        { role := "user", content := args.instruction } ] }

/-- One entry of `tool_calls` in the selector response: carries an
optional `function` field `{ name, arguments }` (the guard in
`src/index.ts` tests `!tool_calls[0].function`, so we keep it optional). -/
structure FunctionCall where
  name : String
  arguments : String
deriving DecidableEq, Repr

/-- A tool call offered by the backend. -/
structure ToolCall where
  function : Option FunctionCall
deriving DecidableEq, Repr

/-- The `message` of the first choice of the selector response; `tool_calls`
is absent (`undefined`) or a list (possibly empty — an empty JavaScript
array is truthy). -/
structure ChoiceMessage where
  tool_calls : Option (List ToolCall)
deriving DecidableEq, Repr

/-- One choice of the non-streaming selector response. -/
structure Choice where
  message : Option ChoiceMessage
deriving DecidableEq, Repr

/-- The non-streaming selector response (`toolCaller` in
`src/index.ts`). -/
structure ToolCallerResponse where
  choices : List Choice
deriving DecidableEq, Repr

/-- Outcome of evaluating the no-tool-call guard (lines 93-98 of
`src/index.ts`) together with the subsequent first-tool-call access
(line 116). `throw` is the JavaScript `TypeError` raised by
`tool_calls[0].function` when `tool_calls` is a present but empty
array (`[]` is truthy, so the `!tool_calls` test does not fire, and
`tool_calls[0]` is `undefined`). -/
inductive GuardResult where
  | noTool
  | tool (fc : FunctionCall)
  | throw
deriving DecidableEq, Repr

/-- JavaScript evaluation of
`!choices[0] || !choices[0].message || !choices[0].message.tool_calls
|| !choices[0].message.tool_calls[0].function`, and on guard failure
the access `choices[0].message.tool_calls[0].function`. -/
def selectToolCall (r : ToolCallerResponse) : GuardResult :=
  match r.choices.head? with
  | none => .noTool
  | some c =>
    match c.message with
    | none => .noTool
    | some m =>
      match m.tool_calls with
      | none => .noTool
      | some tcs =>
        match tcs.head? with
        | none => .throw
        | some tc =>
          match tc.function with
          | none => .noTool
          | some fc => .tool fc

/-- Content of the synthesized selector system message
(`src/index.ts` lines 60-79), parameterised over the JSON-serialized
model list produced by `JSON.stringify` (external builtin). -/
def selectorSystemContent (modelsJson : String) : String :=
  String.intercalate "\n"
    [ "You are an extension of GitHub Copilot, built to interact with GitHub Models.",
      "GitHub Models is a language model playground, where you can experiment with different models and see how they respond to your prompts.",
      "Here is a list of some of the models available to the user:",
      "<-- LIST OF MODELS -->",
      modelsJson,
      "<-- END OF LIST OF MODELS -->" ]

/-- The message list of the selector request
(`toolCallMessages` in `src/index.ts`):
`[systemMessage, ...payload.messages].concat(payload.messages)`. -/
def toolCallMessages (modelsJson : String)
    (messages : List ChatMessage) : List ChatMessage :=
  ({ role := "system", content := selectorSystemContent modelsJson }
      :: messages) ++ messages

/-- The non-streaming selector request issued to the Copilot API
(`src/index.ts` lines 84-90). -/
structure SelectorRequest where
  model : String
  stream : Bool
  messages : List ChatMessage
deriving DecidableEq, Repr

/-- A streaming completion request as issued by the code; the
`include_usage` field is `some b` when the request carries
`stream_options: \x7b include_usage: b \x7d` and `none` when
`stream_options` is omitted. -/
structure StreamRequest where
  model : String
  stream : Bool
  messages : List ChatMessage
  include_usage : Option Bool
deriving DecidableEq, Repr

/-- One observable event on the response channel (`res`). -/
inductive ChannelEvent where
  | ack
  | write (s : String)
  | statusEnd (code : Nat)
  | endResponse
deriving DecidableEq, Repr

/-- The SSE data frame written for one chunk:
`"data: " + JSON.stringify(chunk) + "\n\n"` (chunks are carried here
already in their `JSON.stringify` serialization, the stringifier being
an external builtin). -/
def chunkFrame (chunkJson : String) : ChannelEvent :=
  .write ("data: " ++ chunkJson ++ "\n\n")

/-- The terminal sentinel frame `"data: [DONE]\n\n"`. -/
def doneFrame : ChannelEvent :=
  .write "data: [DONE]\n\n"

/-- The writes of the streaming for-await loop followed by the
sentinel (`src/index.ts` lines 107-111 and 151-155). -/
def streamWrites (chunks : List String) : List ChannelEvent :=
  chunks.map chunkFrame ++ [doneFrame]

/-- Capability names of the registry
`[listModels, describeModel, executeModel, recommendModel]`
(`src/index.ts` line 49). `execute_model` is from
`src/functions/execute-model.ts`; the other three source files are not
in the snapshot, their names follow the capability list of the spec
(ListModels, DescribeModel, RecommendModel). -/
def registryNames : List String :=
  ["list_models", "describe_model", "execute_model", "recommend_model"]

/-- Outcomes of the external calls a single request performs, supplied
as inputs to the dispatch function: the verified payload, the selector
backend response, whether `JSON.parse` accepts a given argument
string, the outcome of the invoked capability handler (handlers may call out
to the catalog; `.error` is a thrown exception such as `NotFoundError`),
whether the streaming `create` call throws, and the chunk sequence the
backend stream emits (serialized) when it completes without error. -/
structure DispatchInputs where
  messages : List ChatMessage
  modelsJson : String
  toolCaller : ToolCallerResponse
  jsonParses : String → Bool
  handlerResult : Except Unit RunnerResponse
  streamFails : Bool
  chunks : List String

/-- Everything observable about one request: the channel event trace,
the selector request issued, the name of the capability handler that
was executed (if any), the streaming request issued (if any), and
whether the request ended in an uncaught exception (no further response
method is called in that case). -/
structure DispatchResult where
  trace : List ChannelEvent
  selectorRequest : SelectorRequest
  executedCapability : Option String
  streamRequest : Option StreamRequest
  crashed : Bool
deriving Repr

/-- The POST handler of `src/index.ts` from the acknowledgement write
(line 45) onward, for a request that passed signature verification.
Mirrors the control flow: ack write; selector call; no-tool-call guard
with fallback streaming on the original messages and model `gpt-4`
(lines 93-114); otherwise `JSON.parse(functionToCall.arguments)`
outside any try/catch (line 117), registry lookup and handler
execution inside a try/catch that answers 500 on failure (lines
119-137), then the streaming call with `include_usage: false` inside a
second try/catch (lines 140-161). -/
def dispatch (inp : DispatchInputs) : DispatchResult :=
  let selReq : SelectorRequest :=
    { model := "gpt-4", stream := false
      messages := toolCallMessages inp.modelsJson inp.messages }
  match selectToolCall inp.toolCaller with
  | .throw =>
    -- TypeError while evaluating the guard: uncaught, the handler dies
    { trace := [.ack], selectorRequest := selReq
      executedCapability := none, streamRequest := none, crashed := true }
  | .noTool =>
    -- fallback: stream with the original messages and the default model
    let req : StreamRequest :=
      { model := "gpt-4", stream := true
        messages := inp.messages, include_usage := none }
    if inp.streamFails then
      -- `await create` rejects: no try/catch on this path, uncaught
      { trace := [.ack], selectorRequest := selReq
        executedCapability := none, streamRequest := some req
        crashed := true }
    else
      { trace := .ack :: streamWrites inp.chunks ++ [.endResponse]
        selectorRequest := selReq
        executedCapability := none, streamRequest := some req
        crashed := false }
  | .tool fc =>
    if inp.jsonParses fc.arguments then
      if fc.name ∈ registryNames then
        match inp.handlerResult with
        | .error _ =>
          -- handler threw: caught, res.status(500).end()
          { trace := [.ack, .statusEnd 500], selectorRequest := selReq
            executedCapability := some fc.name, streamRequest := none
            crashed := false }
        | .ok rr =>
          let req : StreamRequest :=
            { model := rr.model, stream := true
              messages := rr.messages, include_usage := some false }
          if inp.streamFails then
            -- `await create` rejects: caught, res.status(500).end()
            { trace := [.ack, .statusEnd 500], selectorRequest := selReq
              executedCapability := some fc.name, streamRequest := some req
              crashed := false }
          else
            { trace := .ack :: streamWrites inp.chunks ++ [.endResponse]
              selectorRequest := selReq
              executedCapability := some fc.name, streamRequest := some req
              crashed := false }
      else
        -- `throw new Error("Unknown function")`: caught, 500
        { trace := [.ack, .statusEnd 500], selectorRequest := selReq
          executedCapability := none, streamRequest := none
          crashed := false }
    else
      -- JSON.parse throws before the try block: uncaught
      { trace := [.ack], selectorRequest := selReq
        executedCapability := none, streamRequest := none, crashed := true }

/-- The acknowledgement event is never among the frames written by the
streaming loop and its terminal end. -/
theorem ack_not_in_streamWrites (chunks : List String) :
    ChannelEvent.ack ∉ streamWrites chunks ++ [ChannelEvent.endResponse] := by
  simp [streamWrites, chunkFrame, doneFrame]

/-- C2: when the selector response carries no tool call, the
streaming completion request is issued with exactly the original
inbound message sequence (no prepended system preamble) and the fixed
default model `gpt-4`. -/
theorem dispatch_noTool_fallback (inp : DispatchInputs)
    (h : selectToolCall inp.toolCaller = .noTool) :
    (dispatch inp).streamRequest =
      some { model := "gpt-4", stream := true
             messages := inp.messages, include_usage := none } := by
  cases hs : inp.streamFails <;> simp [dispatch, h, hs]

/-- Witness for C2 at a concrete request with an empty selector
response. -/
theorem dispatch_noTool_fallback_witness :
    (dispatch { messages := [{ role := "user", content := "hi" }]
                modelsJson := "[]"
                toolCaller := { choices := [] }
                jsonParses := fun _ => true
                handlerResult := .ok { model := "m", messages := [] }
                streamFails := false
                chunks := [] }).streamRequest =
      some { model := "gpt-4", stream := true
             messages := [{ role := "user", content := "hi" }]
             include_usage := none } :=
  dispatch_noTool_fallback _ rfl

/-- C3: only the first tool call offered by the selector backend is
decomposed and acted upon — dropping every tool call after the first
leaves the whole observable result of the request unchanged. -/
theorem dispatch_first_tool_call_only (inp : DispatchInputs)
    (tc : ToolCall) (rest : List ToolCall) (cs : List Choice) :
    dispatch { inp with toolCaller :=
        { choices :=
            { message := some { tool_calls := some (tc :: rest) } } :: cs } } =
    dispatch { inp with toolCaller :=
        { choices :=
            { message := some { tool_calls := some [tc] } } :: cs } } := rfl

/-- C6: when a streaming completion call is issued and the backend
stream completes without error emitting chunks `c1 ... cN`, the channel
receives, after the acknowledgement, exactly the N SSE-encoded data
frames in emission order, then the `[DONE]` sentinel, then the close. -/
theorem dispatch_stream_relay (inp : DispatchInputs) (r : StreamRequest)
    (hreq : (dispatch inp).streamRequest = some r)
    (hok : inp.streamFails = false) :
    (dispatch inp).trace =
      ChannelEvent.ack ::
        (inp.chunks.map chunkFrame ++ [doneFrame, ChannelEvent.endResponse]) := by
  cases h : selectToolCall inp.toolCaller with
  | noTool => simp [dispatch, h, hok, streamWrites]
  | tool fc =>
    cases hp : inp.jsonParses fc.arguments with
    | false => simp [dispatch, h, hp] at hreq
    | true =>
      by_cases hr : fc.name ∈ registryNames
      · cases hres : inp.handlerResult with
        | error e => simp [dispatch, h, hp, hr, hres] at hreq
        | ok rr => simp [dispatch, h, hp, hr, hres, hok, streamWrites]
      · simp [dispatch, h, hp, hr] at hreq
  | throw => simp [dispatch, h] at hreq

/-- Witness for C6 at a concrete fallback request with two chunks. -/
theorem dispatch_stream_relay_witness :
    (dispatch { messages := []
                modelsJson := "[]"
                toolCaller := { choices := [] }
                jsonParses := fun _ => true
                handlerResult := .ok { model := "m", messages := [] }
                streamFails := false
                chunks := ["c1", "c2"] }).trace =
      [ ChannelEvent.ack,
        ChannelEvent.write "data: c1\n\n",
        ChannelEvent.write "data: c2\n\n",
        ChannelEvent.write "data: [DONE]\n\n",
        ChannelEvent.endResponse ] :=
  dispatch_stream_relay _
    { model := "gpt-4", stream := true, messages := [], include_usage := none }
    rfl rfl

/-- C7: when the selected capability name is absent from the registry,
or the matched handler throws, the request ends with
`res.status(500).end()`, the completion streamer is never invoked, and
zero streamed data frames are written. -/
theorem dispatch_capability_failure_500 (inp : DispatchInputs)
    (fc : FunctionCall)
    (hsel : selectToolCall inp.toolCaller = .tool fc)
    (hparse : inp.jsonParses fc.arguments = true)
    (hfail : fc.name ∉ registryNames ∨ inp.handlerResult = .error ()) :
    (dispatch inp).trace = [ChannelEvent.ack, ChannelEvent.statusEnd 500] ∧
    (dispatch inp).streamRequest = none := by
  rcases hfail with hfail | hfail
  · simp [dispatch, hsel, hparse, hfail]
  · by_cases hr : fc.name ∈ registryNames <;>
      simp [dispatch, hsel, hparse, hr, hfail]

/-- Witness for C7 at a concrete request naming a capability absent
from the registry. -/
theorem dispatch_capability_failure_500_witness :
    (dispatch { messages := []
                modelsJson := "[]"
                toolCaller := ⟨[⟨some ⟨some [⟨some ⟨"bogus", "[]"⟩⟩]⟩⟩]⟩
                jsonParses := fun _ => true
                handlerResult := .ok { model := "m", messages := [] }
                streamFails := false
                chunks := [] }).trace =
        [ChannelEvent.ack, ChannelEvent.statusEnd 500] :=
  (dispatch_capability_failure_500
    { messages := []
      modelsJson := "[]"
      toolCaller := ⟨[⟨some ⟨some [⟨some ⟨"bogus", "[]"⟩⟩]⟩⟩]⟩
      jsonParses := fun _ => true
      handlerResult := .ok { model := "m", messages := [] }
      streamFails := false
      chunks := [] }
    { name := "bogus", arguments := "[]" } rfl rfl (Or.inl (by decide))).1

/-- C9: every request (past signature verification) writes exactly one
acknowledgement event, and it precedes everything else on the channel:
the trace is the acknowledgement followed by events among which the
acknowledgement never reappears. -/
theorem dispatch_single_ack_first (inp : DispatchInputs) :
    ∃ rest, (dispatch inp).trace = ChannelEvent.ack :: rest ∧
      ChannelEvent.ack ∉ rest := by
  cases h : selectToolCall inp.toolCaller with
  | noTool =>
    cases hs : inp.streamFails with
    | true => exact ⟨[], by simp [dispatch, h, hs], by simp⟩
    | false =>
      refine ⟨streamWrites inp.chunks ++ [ChannelEvent.endResponse],
        by simp [dispatch, h, hs], ack_not_in_streamWrites inp.chunks⟩
  | tool fc =>
    cases hp : inp.jsonParses fc.arguments with
    | false => exact ⟨[], by simp [dispatch, h, hp], by simp⟩
    | true =>
      by_cases hr : fc.name ∈ registryNames
      case neg =>
        exact ⟨[ChannelEvent.statusEnd 500],
          by simp [dispatch, h, hp, hr], by simp⟩
      case pos =>
        cases hres : inp.handlerResult with
        | error e =>
          exact ⟨[ChannelEvent.statusEnd 500],
            by simp [dispatch, h, hp, hr, hres], by simp⟩
        | ok rr =>
          cases hs : inp.streamFails with
          | true =>
            exact ⟨[ChannelEvent.statusEnd 500],
              by simp [dispatch, h, hp, hr, hres, hs], by simp⟩
          | false =>
            refine ⟨streamWrites inp.chunks ++ [ChannelEvent.endResponse],
              by simp [dispatch, h, hp, hr, hres, hs],
              ack_not_in_streamWrites inp.chunks⟩
  | throw => exact ⟨[], by simp [dispatch, h], by simp⟩

/-- C10 counterexample: at a concrete no-tool-call request, the
fallback streaming request is issued with `stream_options` omitted
(`include_usage` unset, not explicitly `false`). -/
theorem dispatch_fallback_usage_counterexample :
    (dispatch { messages := [{ role := "user", content := "hey" }]
                modelsJson := "[]"
                toolCaller := { choices := [{ message := none }] }
                jsonParses := fun _ => true
                handlerResult := .ok { model := "m", messages := [] }
                streamFails := false
                chunks := [] }).streamRequest =
      some { model := "gpt-4", stream := true
             messages := [{ role := "user", content := "hey" }]
             include_usage := none } ∧
    (none : Option Bool) ≠ some false :=
  ⟨rfl, by decide⟩

/-- C10 amended: a streaming completion request carries
`include_usage = false` exactly when it is the capability-path request;
the fallback-path request omits the stream options, leaving
`include_usage` unset. -/
theorem dispatch_stream_usage_options (inp : DispatchInputs)
    (r : StreamRequest)
    (h : (dispatch inp).streamRequest = some r) :
    r.include_usage =
      if (dispatch inp).executedCapability.isSome then some false
      else none := by
  cases hsel : selectToolCall inp.toolCaller with
  | noTool =>
    cases hs : inp.streamFails <;>
      simp [dispatch, hsel, hs] at h ⊢ <;> simp [← h]
  | tool fc =>
    cases hp : inp.jsonParses fc.arguments with
    | false => simp [dispatch, hsel, hp] at h
    | true =>
      by_cases hr : fc.name ∈ registryNames
      case neg => simp [dispatch, hsel, hp, hr] at h
      case pos =>
        cases hres : inp.handlerResult with
        | error e => simp [dispatch, hsel, hp, hr, hres] at h
        | ok rr =>
          cases hs : inp.streamFails <;>
            simp [dispatch, hsel, hp, hr, hres, hs] at h ⊢ <;> simp [← h]
  | throw => simp [dispatch, hsel] at h

/-- Witness for C10 amended at a concrete capability-path request. -/
theorem dispatch_stream_usage_options_witness :
    ({ model := "gpt-4o", stream := true
       messages := [{ role := "user", content := "say hi" }]
       include_usage := some false } : StreamRequest).include_usage =
      some false :=
  dispatch_stream_usage_options
    { messages := []
      modelsJson := "[]"
      toolCaller := ⟨[⟨some ⟨some [⟨some ⟨"execute_model", "a"⟩⟩]⟩⟩]⟩
      jsonParses := fun _ => true
      handlerResult := .ok
        { model := "gpt-4o"
          messages := [{ role := "user", content := "say hi" }] }
      streamFails := false
      chunks := [] } _ rfl

/-- C4: the selector request duplicates the inbound conversation —
after the single synthesized system message, each inbound message
appears twice, not once
(`[systemMessage, ...payload.messages].concat(payload.messages)`). -/
theorem selector_messages_duplicated :
    (dispatch { messages := [{ role := "user", content := "hi" }]
                modelsJson := "[]"
                toolCaller := { choices := [] }
                jsonParses := fun _ => true
                handlerResult := .ok { model := "m", messages := [] }
                streamFails := false
                chunks := [] }).selectorRequest.messages =
      [ { role := "system", content := selectorSystemContent "[]" },
        { role := "user", content := "hi" },
        { role := "user", content := "hi" } ] := rfl

/-- C5: when the arguments of the first tool call do not parse,
`JSON.parse` throws outside every try/catch — the request dies with an
uncaught exception after only the acknowledgement write: no 500 status
is written, no capability handler runs, no streaming request is
issued. -/
theorem dispatch_malformed_arguments_uncaught :
    dispatch { messages := [{ role := "user", content := "go" }]
               modelsJson := "[]"
               toolCaller := ⟨[⟨some ⟨some [⟨some ⟨"execute_model", "not json"⟩⟩]⟩⟩]⟩
               jsonParses := fun _ => false
               handlerResult := .ok { model := "m", messages := [] }
               streamFails := false
               chunks := [] } =
      { trace := [ChannelEvent.ack]
        selectorRequest :=
          { model := "gpt-4", stream := false
            messages := toolCallMessages "[]"
              [{ role := "user", content := "go" }] }
        executedCapability := none
        streamRequest := none
        crashed := true } := rfl

/-- C8: when `tool_calls` of the first choice is present but empty, the
guard does not take the fallback path: `tool_calls[0].function` reads
past the end of the array and the request dies with an uncaught
`TypeError` after only the acknowledgement write. -/
theorem dispatch_empty_tool_calls_crashes :
    dispatch { messages := [{ role := "user", content := "yo" }]
               modelsJson := "[]"
               toolCaller := ⟨[⟨some ⟨some []⟩⟩]⟩
               jsonParses := fun _ => true
               handlerResult := .ok { model := "m", messages := [] }
               streamFails := false
               chunks := [] } =
      { trace := [ChannelEvent.ack]
        selectorRequest :=
          { model := "gpt-4", stream := false
            messages := toolCallMessages "[]"
              [{ role := "user", content := "yo" }] }
        executedCapability := none
        streamRequest := none
        crashed := true } := rfl

/-- C1: for every argument pair, `executeModel.execute` returns
`targetModel = args.model` and exactly the two-message sequence
(system identity instruction, then the instruction verbatim as a user
message), independently of the conversation argument. -/
theorem executeModel_execute_spec
    (conversation conversation' : List ChatMessage)
    (args : ExecuteModelArgs) :
    executeModel.execute conversation args =
      { model := args.model
        messages :=
          [ executeModelSystemMessage,
            { role := "user", content := args.instruction } ] } ∧
    executeModel.execute conversation args =
      executeModel.execute conversation' args := by
  exact ⟨rfl, rfl⟩
